import Mathlib

/-!
Verification of the Payme payment reconciliation engine of the shafran-server
repository: the transaction state machine (`CheckPerformTransaction`,
`CheckTransaction`, `CreateTransaction`, `PerformTransaction`,
`CancelTransaction`, `GetStatement` in `internal/services/payme_service.go`),
the locked Billz dispatch workflow (`dispatchBillzOrder`,
`CreateBillzOrderFromPaymeTransaction`), and the Billz HTTP client's 401
retry logic (`DoBillzRequest` in `internal/services/billz_service.go`).

The database is modelled as a list of `Txn` rows (list order standing for
primary-key order, so gorm's `First` is `List.find?`), a gorm
`UPDATE ... WHERE` as a map over the list that rewrites every matching row,
and a gorm `Transaction` closure as a function from the database to a new
database plus an `Except` outcome, where a returned error rolls the database
back to its pre-transaction value.  Machine integers (`int`, `int64`) are
modelled as `Int`; Go's integer division truncates toward zero (`Int.tdiv`).
The external Billz API is abstracted as an oracle function supplied to the
operations that call it; uuid parsing (`uuid.Parse` of the google/uuid
library) is abstracted as a function `up : String → Option String` returning
the canonical text of the uuid on success.
-/

/-- Mirrors `models.PaymeTransaction` (internal/models/payme_transaction.go).
`id` is the uuid primary key in canonical text form; `orderDetails` models the
raw `[]byte` jsonb payload as a string; `billzSyncedAt` models the nullable
timestamp as an optional integer. -/
structure Txn where
  id : String
  transactionId : String
  userId : Option String
  orderDetails : String
  status : Int
  amount : Int
  orderId : String
  createTime : Int
  performTime : Int
  cancelTime : Int
  reason : Option Int
  provider : String
  prepareId : String
  billzOrderId : String
  billzOrderNumber : String
  billzOrderType : String
  billzSyncedAt : Option Int
  billzSyncError : String
deriving DecidableEq, Repr

/-- The transaction store: rows in primary-key order. -/
abbrev DB := List Txn

/-- Go integer division (`/` on int64) truncates toward zero. -/
def goDiv (a b : Int) : Int := Int.tdiv a b

/-- Mirrors `intAbs` (payme_service.go). -/
def intAbs (v : Int) : Int := if v < 0 then -v else v

/-- The Payme error taxonomy (`PaymeErrorInfo` values in payme_service.go). -/
inductive PaymeErr where
  | invalidAmount
  | cantDoOperation
  | transactionNotFound
  | alreadyDone
  | pendingErr
  | invalidAuthorization
deriving DecidableEq, Repr

/-- The numeric codes of the `PaymeErrorInfo` constants. -/
def errCode : PaymeErr → Int
  | .invalidAmount => -31001
  | .cantDoOperation => -31008
  | .transactionNotFound => -31050
  | .alreadyDone => -31060
  | .pendingErr => -31050
  | .invalidAuthorization => -32504

/-- Mirrors `PaymeAccount`. -/
structure PaymeAccount where
  orderId : String
deriving DecidableEq, Repr

/-- Mirrors `CheckPerformParams`. -/
structure CheckPerformParams where
  amount : Int
  account : PaymeAccount
deriving DecidableEq, Repr

/-- Mirrors `CreateTransactionParams`. -/
structure CreateTransactionParams where
  account : PaymeAccount
  time : Int
  amount : Int
  id : String
deriving DecidableEq, Repr

/-- Mirrors `PerformTransactionParams`. -/
structure PerformTransactionParams where
  id : String
deriving DecidableEq, Repr

/-- Mirrors `CancelTransactionParams`. -/
structure CancelTransactionParams where
  id : String
  reason : Int
deriving DecidableEq, Repr

/-- Mirrors `StatementParams`. -/
structure StatementParams where
  From : Int
  To : Int
deriving DecidableEq, Repr

/-- Mirrors `CheckTransactionResult` (also the result shape of
`CreateTransaction`). -/
structure CheckTransactionResult where
  createTime : Int
  performTime : Int
  cancelTime : Int
  transaction : String
  state : Int
  reason : Option Int
deriving DecidableEq, Repr

/-- Mirrors `PerformTransactionResult`. -/
structure PerformTransactionResult where
  performTime : Int
  transaction : String
  state : Int
deriving DecidableEq, Repr

/-- Mirrors `CancelTransactionResult`. -/
structure CancelTransactionResult where
  cancelTime : Int
  transaction : String
  state : Int
deriving DecidableEq, Repr

/-- Mirrors `StatementTransaction`. -/
structure StatementTransaction where
  transactionId : String
  time : Int
  amount : Int
  account : PaymeAccount
  createTime : Int
  performTime : Int
  cancelTime : Int
  transaction : String
  state : Int
  reason : Option Int
deriving DecidableEq, Repr

/-- Mirrors `BillzOrderResult` (billz_order_service.go). -/
structure BillzOrderResult where
  orderId : String
  orderNumber : String
  orderType : String
deriving DecidableEq, Repr

/-- A gorm `UPDATE ... SET f WHERE p`: rewrites every row satisfying `p`. -/
def updateWhere (db : DB) (p : Txn → Bool) (f : Txn → Txn) : DB :=
  db.map fun t => if p t then f t else t

/-- The row predicate of the SQL filter
`provider = 'payme' AND (id = ref OR order_id = ref)` used by
`CreateTransaction` to bind a fresh external id, and equally the predicate
decided by `findTransactionByOrderRef`'s two lookups.  The uuid-column
comparison `id = ref` is modelled by parsing the literal: it holds when `ref`
parses to the row's canonical uuid text.  (When `ref` is not uuid text the
comparison is modelled as false.) -/
def matchesOrderRef (up : String → Option String) (ref : String) (t : Txn) : Bool :=
  match up ref with
  | some u => t.provider == "payme" && (t.id == u || t.orderId == ref)
  | none => t.provider == "payme" && t.orderId == ref

/-- Mirrors `findTransactionByOrderRef`: try the uuid primary key first when
the reference parses as a uuid, then fall back to `order_id`, always filtered
to `provider = 'payme'`. -/
def findTransactionByOrderRef (up : String → Option String) (db : DB) (ref : String) :
    Option Txn :=
  match up ref with
  | some u =>
    match db.find? (fun t => t.provider == "payme" && t.id == u) with
    | some t => some t
    | none => db.find? (fun t => t.provider == "payme" && t.orderId == ref)
  | none => db.find? (fun t => t.provider == "payme" && t.orderId == ref)

/-- Mirrors `CheckPerformTransaction`: normalize the amount by Go integer
division by 100, look the row up by order reference, compare amounts.  The
function performs no writes; `none` is success, `some e` the returned
`TransactionError`. -/
def checkPerformTransaction (up : String → Option String) (db : DB)
    (p : CheckPerformParams) : Option PaymeErr :=
  let amount := goDiv p.amount 100
  match findTransactionByOrderRef up db p.account.orderId with
  | none => some .transactionNotFound
  | some txn => if txn.amount != amount then some .invalidAmount else none

/-- The id of a `CheckTransaction` request: the Go `any` may hold a string, a
JSON number (float64, converted via `strconv.FormatInt(int64(v), 10)`), or
anything else (rejected). -/
inductive RpcId where
  | str (s : String)
  | num (n : Int)
  | other
deriving Repr

/-- The lookup-and-project tail of `CheckTransaction`: reason is surfaced
only when present and non-zero. -/
def checkTransactionLookup (db : DB) (lookupId : String) :
    Except PaymeErr CheckTransactionResult :=
  match db.find? (fun t => t.transactionId == lookupId) with
  | none => .error .transactionNotFound
  | some txn =>
    let reason : Option Int :=
      match txn.reason with
      | some r => if r != 0 then some r else none
      | none => none
    .ok { createTime := txn.createTime, performTime := txn.performTime,
          cancelTime := txn.cancelTime, transaction := txn.transactionId,
          state := txn.status, reason := reason }

/-- Mirrors `CheckTransaction`: coerce the id, look up, project.  No writes. -/
def checkTransaction (db : DB) (pid : RpcId) : Except PaymeErr CheckTransactionResult :=
  match pid with
  | .str s => checkTransactionLookup db s
  | .num n => checkTransactionLookup db (toString n)
  | .other => .error .transactionNotFound

/-- The final branch of `CreateTransaction`: bind the fresh external id to the
row(s) matching the order reference, set state pending and stamp create_time. -/
def createBind (up : String → Option String) (db : DB) (p : CreateTransactionParams) :
    DB × Except PaymeErr CheckTransactionResult :=
  (updateWhere db (matchesOrderRef up p.account.orderId)
      (fun t => { t with transactionId := p.id, status := 1, createTime := p.time }),
   .ok { createTime := p.time, performTime := 0, cancelTime := 0,
         transaction := p.id, state := 1, reason := none })

/-- Mirrors `CreateTransaction`.  Returns the database after the call's writes
together with the RPC outcome.  `now` is `time.Now().UnixMilli()`. -/
def createTransaction (up : String → Option String) (db : DB)
    (p : CreateTransactionParams) (now : Int) :
    DB × Except PaymeErr CheckTransactionResult :=
  match checkPerformTransaction up db { amount := p.amount, account := p.account } with
  | some e => (db, .error e)
  | none =>
    match db.find? (fun t => t.transactionId == p.id) with
    | some existing =>
      if existing.status != 1 then (db, .error .cantDoOperation)
      else if goDiv (now - existing.createTime) 60000 ≥ 12 then
        (updateWhere db (fun t => t.transactionId == p.id)
            (fun t => { t with status := -1, reason := some 4 }),
         .error .cantDoOperation)
      else
        (db, .ok { createTime := existing.createTime, performTime := 0,
                   cancelTime := 0, transaction := p.id, state := 1, reason := none })
    | none =>
      match findTransactionByOrderRef up db p.account.orderId with
      | some order =>
        if order.status == 2 then (db, .error .alreadyDone)
        else if order.status == 1 then (db, .error .pendingErr)
        else createBind up db p
      | none => createBind up db p

/-- Errors of the dispatch path: the locked row read found nothing, or the
Billz order creation failed with a message. -/
inductive DispatchErr where
  | recordNotFound
  | orderCreate (msg : String)
deriving DecidableEq, Repr

/-- Mirrors `truncateBillzSyncError`: empty on nil error, otherwise the
message capped at 1024 (Go slices bytes; strings here model byte strings). -/
def truncateBillzSyncError (err : Option String) : String :=
  match err with
  | none => ""
  | some msg => if msg.length ≤ 1024 then msg else msg.take 1024

/-- The body of the gorm `Transaction` closure inside `dispatchBillzOrder`,
acting on the database it would act on if committed.  `co` is the oracle for
`CreateBillzOrderFromPaymeTransaction` (`.ok none` models the `nil, nil`
return).  The returned `Nat` counts invocations of `co`, i.e. attempts to
convert the transaction into a Billz order (each such invocation is the only
way a create-draft-order HTTP call can be issued). -/
def dispatchAttempt (co : Txn → Except String (Option BillzOrderResult)) (db : DB)
    (tid : String) (now : Int) :
    DB × Nat × Except DispatchErr (Option BillzOrderResult) :=
  match db.find? (fun t => t.id == tid && t.provider == "payme") with
  | none => (db, 0, .error .recordNotFound)
  | some txn =>
    if txn.billzOrderId != "" then
      (db, 0, .ok (some { orderId := txn.billzOrderId,
                          orderNumber := txn.billzOrderNumber,
                          orderType := txn.billzOrderType }))
    else
      match co txn with
      | .error msg =>
        (updateWhere db (fun t => t.id == tid)
            (fun t => { t with billzSyncError := truncateBillzSyncError (some msg) }),
         1, .error (.orderCreate msg))
      | .ok none => (db, 1, .ok none)
      | .ok (some res) =>
        (updateWhere db (fun t => t.id == tid)
            (fun t => { t with
                        billzOrderId := res.orderId,
                        billzOrderNumber := res.orderNumber,
                        billzOrderType := res.orderType,
                        billzSyncedAt := some now,
                        billzSyncError := "" }),
         1, .ok (some res))

/-- Mirrors `dispatchBillzOrder`: the closure runs inside
`s.db.Transaction`, so when it returns an error gorm rolls every write back
and the database is left unchanged; on success the writes are committed. -/
def dispatchBillzOrder (co : Txn → Except String (Option BillzOrderResult)) (db : DB)
    (tid : String) (now : Int) :
    DB × Nat × Except DispatchErr (Option BillzOrderResult) :=
  match dispatchAttempt co db tid now with
  | (db', n, .ok v) => (db', n, .ok v)
  | (_, n, .error e) => (db, n, .error e)

/-- Mirrors `PerformTransaction`.  The telegram notification is fire-and-forget
and not modelled; dispatch outcomes are dropped (only logged in the source). -/
def performTransaction (co : Txn → Except String (Option BillzOrderResult)) (db : DB)
    (p : PerformTransactionParams) (now : Int) :
    DB × Except PaymeErr PerformTransactionResult :=
  match db.find? (fun t => t.transactionId == p.id) with
  | none => (db, .error .transactionNotFound)
  | some txn =>
    if txn.status != 1 then
      if txn.status != 2 then (db, .error .cantDoOperation)
      else
        ((dispatchBillzOrder co db txn.id now).1,
         .ok { performTime := txn.performTime, transaction := txn.transactionId,
               state := 2 })
    else if goDiv (now - txn.createTime) 60000 ≥ 12 then
      (updateWhere db (fun t => t.transactionId == p.id)
          (fun t => { t with status := -1, reason := some 4, cancelTime := now }),
       .error .cantDoOperation)
    else
      let db1 := updateWhere db (fun t => t.transactionId == p.id)
          (fun t => { t with status := 2, performTime := now })
      ((dispatchBillzOrder co db1 txn.id now).1,
       .ok { performTime := now, transaction := txn.transactionId, state := 2 })

/-- Mirrors `CancelTransaction`.  In the positive-status branch the source
mutates its local copy (`txn.Status = newState; txn.CancelTime = currentTime`)
before computing the returned cancel time and state. -/
def cancelTransaction (db : DB) (p : CancelTransactionParams) (now : Int) :
    DB × Except PaymeErr CancelTransactionResult :=
  match db.find? (fun t => t.transactionId == p.id) with
  | none => (db, .error .transactionNotFound)
  | some txn =>
    if 0 < txn.status then
      let newState := -1 * intAbs txn.status
      let db' := updateWhere db (fun t => t.transactionId == p.id)
          (fun t => { t with
                      status := newState, reason := some p.reason,
                      cancelTime := now })
      let txn1 : Txn := { txn with status := newState, cancelTime := now }
      let cancelTime := if txn1.cancelTime == 0 then now else txn1.cancelTime
      (db', .ok { cancelTime := cancelTime, transaction := txn1.transactionId,
                  state := -1 * intAbs txn1.status })
    else
      let cancelTime := if txn.cancelTime == 0 then now else txn.cancelTime
      (db, .ok { cancelTime := cancelTime, transaction := txn.transactionId,
                 state := -1 * intAbs txn.status })

/-- Mirrors `GetStatement`: all provider rows with create_time in range,
projected to the wire shape.  No writes. -/
def getStatement (db : DB) (p : StatementParams) : List StatementTransaction :=
  (db.filter fun t =>
      decide (p.From ≤ t.createTime) && decide (t.createTime ≤ p.To) &&
      t.provider == "payme").map fun t =>
    { transactionId := t.transactionId, time := t.createTime, amount := t.amount,
      account := { orderId := t.id }, createTime := t.createTime,
      performTime := t.performTime, cancelTime := t.cancelTime,
      transaction := t.transactionId, state := t.status, reason := t.reason }

/-- Mirrors the early exit of `CreateBillzOrderFromPaymeTransaction`
(billz_order_service.go lines 115-122): an empty `order_details` payload
returns `nil, nil` before any HTTP call; `rest` is the remainder of the
function (double-decode, item extraction and the Billz HTTP sequence). -/
def createBillzOrderFromPaymeTransaction
    (rest : Txn → Except String (Option BillzOrderResult)) (txn : Txn) :
    Except String (Option BillzOrderResult) :=
  if txn.orderDetails.length == 0 then .ok none else rest txn

/-- One call of the JSON-RPC surface dispatched by the payme handler
(internal/handlers/payme.go): exactly the six service methods. -/
inductive RpcOp where
  | checkPerform (p : CheckPerformParams)
  | check (pid : RpcId)
  | create (p : CreateTransactionParams)
  | perform (co : Txn → Except String (Option BillzOrderResult))
      (p : PerformTransactionParams)
  | cancel (p : CancelTransactionParams)
  | statement (p : StatementParams)

/-- The database after one RPC call: the read-only methods leave it unchanged,
the mutating methods are the modelled services. -/
def applyOp (up : String → Option String) (db : DB) (op : RpcOp) (now : Int) : DB :=
  match op with
  | .checkPerform _ => db
  | .check _ => db
  | .create p => (createTransaction up db p now).1
  | .perform co p => (performTransaction co db p now).1
  | .cancel p => (cancelTransaction db p now).1
  | .statement _ => db

/-- An HTTP response as bundled by the Billz client (`BillzResponse`). -/
structure BillzResp where
  status : Int
  body : String
deriving DecidableEq, Repr

/-- Mirrors the control flow of `DoBillzRequest` (billz_service.go).  URL
construction and header assembly are abstracted: `ex n tok` is the outcome of
the `n`-th HTTP attempt of this call carrying bearer token `tok`; `gt` models
`GetBillzToken` (the shared token cache, refreshed when absent or stale) and
`rt` models `RefreshBillzToken` (forced refresh).  Returns the outcome
together with the number of HTTP attempts issued and the number of forced
refreshes.  The retry branch runs only when the first response is 401 and the
caller did not supply an explicit token (`opts.Token == ""`). -/
def doBillzRequest (gt rt : Except String String)
    (ex : Nat → String → Except String BillzResp)
    (method path optsToken : String) :
    Except String BillzResp × Nat × Nat :=
  if method == "" then (.error "request method is required", 0, 0)
  else if String.mk (path.toList.dropWhile (fun c => c == '/')) == "" then
    (.error "request path is required", 0, 0)
  else
    match (if optsToken == "" then gt else .ok optsToken) with
    | .error e => (.error e, 0, 0)
    | .ok tok =>
      match ex 0 tok with
      | .error e => (.error e, 1, 0)
      | .ok resp =>
        if resp.status != 401 || optsToken != "" then (.ok resp, 1, 0)
        else
          match rt with
          | .error e => (.error e, 1, 1)
          | .ok tok2 =>
            match ex 1 tok2 with
            | .error e => (.error e, 2, 1)
            | .ok resp2 => (.ok resp2, 2, 1)

/-- A base transaction row (all Go zero values, provider `payme`) used to
build concrete instances. -/
def mkTxn : Txn :=
  { id := "", transactionId := "", userId := none, orderDetails := "",
    status := 0, amount := 0, orderId := "", createTime := 0, performTime := 0,
    cancelTime := 0, reason := none, provider := "payme", prepareId := "",
    billzOrderId := "", billzOrderNumber := "", billzOrderType := "",
    billzSyncedAt := none, billzSyncError := "" }

/-- Every row's status is one of the five protocol states. -/
def wellStatus (db : DB) : Prop :=
  ∀ t ∈ db, t.status = 0 ∨ t.status = 1 ∨ t.status = 2 ∨ t.status = -1 ∨ t.status = -2

/-- One row's admissible status change under a single RPC call: unchanged, one
of the documented lifecycle edges `0→1`, `1→2`, `1→-1`, `2→-2`, or the
revival edge `-1→1` / `-2→1` taken by `CreateTransaction` when it binds a
fresh external id to the order reference of a canceled row. -/
def statusStep (old new : Int) : Prop :=
  new = old ∨ (old = 0 ∧ new = 1) ∨ (old = 1 ∧ new = 2) ∨
    (old = 1 ∧ new = -1) ∨ (old = 2 ∧ new = -2) ∨
    ((old = -1 ∨ old = -2) ∧ new = 1)

/-- Integrity conditions on one call, needed for the transition invariant: the
external id addressed by the call and the order reference matched by
`CreateTransaction`'s binding update each select at most one row
(`transaction_id` is unique once set; an order reference denotes one checkout
row). -/
def opWellFormed (up : String → Option String) (db : DB) (op : RpcOp) : Prop :=
  match op with
  | .create p =>
    db.countP (fun t => t.transactionId == p.id) ≤ 1 ∧
    db.countP (matchesOrderRef up p.account.orderId) ≤ 1
  | .perform _ p => db.countP (fun t => t.transactionId == p.id) ≤ 1
  | .cancel p => db.countP (fun t => t.transactionId == p.id) ≤ 1
  | _ => True

/-- A canceled (`-1`) row used to exercise `CreateTransaction`'s rebinding
path: its uuid primary key and order id both equal the order reference used
by the call. -/
def rowC1 : Txn :=
  { mkTxn with id := "11111111-1111-1111-1111-111111111111",
               orderId := "11111111-1111-1111-1111-111111111111",
               transactionId := "t0", status := -1, amount := 5 }

/-- A uuid-parse model agreeing with `uuid.Parse` on the canonical text of
`rowC1.id` (it parses to itself) and failing on everything else. -/
def upC1 : String → Option String :=
  fun s => if s == "11111111-1111-1111-1111-111111111111" then some s else none

/-- A `CreateTransaction` request binding the fresh external id `t1` to the
order reference of `rowC1`, with a matching amount (`500 / 100 = 5`). -/
def pC1 : CreateTransactionParams :=
  { account := { orderId := "11111111-1111-1111-1111-111111111111" },
    time := 777, amount := 500, id := "t1" }

/-- A paid row with a non-empty `order_details` payload and no recorded Billz
order, eligible for dispatch. -/
def rowC3 : Txn :=
  { mkTxn with id := "22222222-2222-2222-2222-222222222222",
               transactionId := "t3", status := 2, orderDetails := "x" }

/-- A row already dispatched to Billz (order id `B1`), for idempotency
instances. -/
def rowW2 : Txn :=
  { mkTxn with id := "w2", billzOrderId := "B1", billzOrderNumber := "N1",
               billzOrderType := "T1" }

/-- A stale pending row: pending since epoch 0, amount 5, order id `o6`. -/
def row6 : Txn :=
  { mkTxn with transactionId := "t6", orderId := "o6", status := 1, amount := 5 }

/-- A `CreateTransaction` retry for `row6`'s external id with the matching
amount. -/
def p6 : CreateTransactionParams :=
  { account := { orderId := "o6" }, time := 1, amount := 500, id := "t6" }

/-! ## Helper lemmas about the store primitives -/

theorem updateWhere_getElem? (db : DB) (p : Txn → Bool) (f : Txn → Txn) (i : Nat) :
    (updateWhere db p f)[i]? = db[i]?.map (fun t => if p t then f t else t) := by
  simp [updateWhere]

theorem updateWhere_status_eq (db : DB) (p : Txn → Bool) (f : Txn → Txn)
    (hf : ∀ t, (f t).status = t.status) (i : Nat) :
    (updateWhere db p f)[i]?.map Txn.status = db[i]?.map Txn.status := by
  rw [updateWhere_getElem?]
  cases h : db[i]? with
  | none => rfl
  | some t => by_cases hp : p t <;> simp [hp, hf]

theorem find?_updateWhere (db : DB) (q p : Txn → Bool) (f : Txn → Txn)
    (hq : ∀ t, q (f t) = q t) :
    (updateWhere db p f).find? q
      = (db.find? q).map (fun t => if p t then f t else t) := by
  induction db with
  | nil => rfl
  | cons a rest ih =>
    have hga : q (if p a then f a else a) = q a := by
      by_cases hpa : p a <;> simp [hpa, hq]
    cases hqa : q a with
    | true =>
      simp only [updateWhere, List.map_cons]
      rw [List.find?_cons_of_pos _ (by rw [hga, hqa]),
          List.find?_cons_of_pos _ hqa]
      rfl
    | false =>
      simp only [updateWhere, List.map_cons]
      rw [List.find?_cons_of_neg _ (by rw [hga, hqa]; simp),
          List.find?_cons_of_neg _ (by simp [hqa])]
      exact ih

theorem countP_le_one_unique {α : Type} (p : α → Bool) (l : List α)
    (h : l.countP p ≤ 1) {t u : α} (ht : t ∈ l) (hpt : p t) (hu : u ∈ l)
    (hpu : p u) : t = u := by
  induction l with
  | nil => cases ht
  | cons a rest ih =>
    rw [List.countP_cons] at h
    by_cases hpa : p a = true
    · have hz : rest.countP p = 0 := by rw [if_pos hpa] at h; omega
      have hnone := List.countP_eq_zero.mp hz
      rcases List.mem_cons.mp ht with rfl | htr
      · rcases List.mem_cons.mp hu with rfl | hur
        · rfl
        · exact absurd hpu (hnone u hur)
      · exact absurd hpt (hnone t htr)
    · rcases List.mem_cons.mp ht with rfl | htr
      · exact absurd hpt hpa
      · rcases List.mem_cons.mp hu with rfl | hur
        · exact absurd hpu hpa
        · exact ih (by simpa [hpa] using h) htr hur

theorem findTransactionByOrderRef_mem_matches (up : String → Option String)
    (db : DB) (ref : String) (t : Txn)
    (h : findTransactionByOrderRef up db ref = some t) :
    t ∈ db ∧ matchesOrderRef up ref t = true := by
  unfold findTransactionByOrderRef at h
  unfold matchesOrderRef
  cases hup : up ref with
  | none =>
    simp only [hup] at h ⊢
    refine ⟨List.mem_of_find?_eq_some h, ?_⟩
    have := List.find?_some h
    simpa using this
  | some u =>
    simp only [hup] at h ⊢
    cases h1 : db.find? (fun t => t.provider == "payme" && t.id == u) with
    | some t' =>
      rw [h1] at h
      injection h with h
      subst h
      refine ⟨List.mem_of_find?_eq_some h1, ?_⟩
      have := List.find?_some h1
      simp only [Bool.and_eq_true] at this
      simp [this.1, this.2]
    | none =>
      rw [h1] at h
      refine ⟨List.mem_of_find?_eq_some h, ?_⟩
      have := List.find?_some h
      simp only [Bool.and_eq_true] at this
      simp [this.1, this.2]

theorem findTransactionByOrderRef_eq_none_iff (up : String → Option String)
    (db : DB) (ref : String) :
    findTransactionByOrderRef up db ref = none ↔
      ∀ t ∈ db, matchesOrderRef up ref t = false := by
  unfold findTransactionByOrderRef matchesOrderRef
  cases hup : up ref with
  | none =>
    simp only [hup, List.find?_eq_none]
    constructor
    · intro h t htm
      have := h t htm
      simpa using this
    · intro h t htm
      simpa using h t htm
  | some u =>
    simp only [hup]
    cases h1 : db.find? (fun t => t.provider == "payme" && t.id == u) with
    | some t' =>
      simp only []
      constructor
      · intro h; cases h
      · intro h
        have hmem := List.mem_of_find?_eq_some h1
        have hpred := List.find?_some h1
        have hm := h t' hmem
        simp only [Bool.and_eq_true] at hpred
        simp [hpred.1, hpred.2] at hm
    | none =>
      have h1' := List.find?_eq_none.mp h1
      simp only [List.find?_eq_none]
      constructor
      · intro h t htm
        have h2 := h t htm
        have h3 := h1' t htm
        cases hprov : (t.provider == "payme") with
        | false => simp [hprov]
        | true =>
          simp only [hprov, Bool.true_and, Bool.not_eq_true] at h2 h3
          simp [hprov, h2, h3]
      · intro h t htm
        have hm := h t htm
        simp only [Bool.not_eq_true]
        cases hob : (t.orderId == ref) with
        | false => simp [hob]
        | true =>
          cases hprov : (t.provider == "payme") with
          | false => simp [hprov]
          | true => simp [hprov, hob] at hm

example : goDiv 150000 100 = 1500 := by decide
example : goDiv (-150) 100 = -1 := by decide
example : Int.fdiv (-150) 100 = -2 := by decide
example : goDiv 720000 60000 = 12 := by decide

theorem statusStep_refl (s : Int) : statusStep s s := Or.inl rfl

theorem statusStep_of_update (db : DB) (p : Txn → Bool) (f : Txn → Txn)
    (hstep : ∀ t ∈ db, p t = true → statusStep t.status (f t).status)
    (i : Nat) (t t' : Txn) (ht : db[i]? = some t)
    (ht' : (updateWhere db p f)[i]? = some t') :
    statusStep t.status t'.status := by
  rw [updateWhere_getElem?, ht] at ht'
  by_cases hp : p t = true
  · rw [Option.map_some', if_pos hp] at ht'
    injection ht' with ht'
    subst ht'
    exact hstep t (List.getElem?_mem ht) hp
  · rw [Option.map_some', if_neg hp] at ht'
    injection ht' with ht'
    subst ht'
    exact statusStep_refl _

theorem dispatchAttempt_status_eq (co : Txn → Except String (Option BillzOrderResult))
    (db : DB) (tid : String) (now : Int) (i : Nat) :
    ((dispatchAttempt co db tid now).1)[i]?.map Txn.status = db[i]?.map Txn.status := by
  unfold dispatchAttempt
  cases hf : db.find? (fun t => t.id == tid && t.provider == "payme") with
  | none => rfl
  | some txn =>
    by_cases hb : (txn.billzOrderId != "") = true
    · simp [hb]
    · dsimp only
      rw [if_neg hb]
      cases hco : co txn with
      | error msg =>
        dsimp only
        apply updateWhere_status_eq
        intro t
        rfl
      | ok r =>
        cases r with
        | none => rfl
        | some res =>
          dsimp only
          apply updateWhere_status_eq
          intro t
          rfl

theorem dispatchBillzOrder_status_eq (co : Txn → Except String (Option BillzOrderResult))
    (db : DB) (tid : String) (now : Int) (i : Nat) :
    ((dispatchBillzOrder co db tid now).1)[i]?.map Txn.status = db[i]?.map Txn.status := by
  unfold dispatchBillzOrder
  rcases ha : dispatchAttempt co db tid now with ⟨db', n, r⟩
  have := dispatchAttempt_status_eq co db tid now i
  rw [ha] at this
  cases r with
  | ok v => exact this
  | error e => rfl

theorem statusStep_of_same (db : DB) (i : Nat) (t t' : Txn) (ht : db[i]? = some t)
    (ht' : db[i]? = some t') : statusStep t.status t'.status := by
  rw [ht] at ht'
  injection ht' with h
  rw [h]
  exact statusStep_refl _

theorem performTransaction_pending_ok
    (co : Txn → Except String (Option BillzOrderResult)) (db : DB)
    (p : PerformTransactionParams) (now : Int) (txn : Txn)
    (hfind : db.find? (fun t => t.transactionId == p.id) = some txn)
    (hpending : txn.status = 1)
    (hage0 : 0 ≤ now - txn.createTime)
    (hage : now - txn.createTime < 720000) :
    (performTransaction co db p now).2 =
      .ok { performTime := now, transaction := txn.transactionId, state := 2 } := by
  have hdiv : goDiv (now - txn.createTime) 60000 < 12 := by
    rw [goDiv, Int.tdiv_eq_ediv hage0 (by norm_num)]
    omega
  unfold performTransaction
  rw [hfind]
  dsimp only
  rw [if_neg (by simp [hpending]), if_neg (not_le.mpr hdiv)]

theorem dispatch_shortcircuit (co : Txn → Except String (Option BillzOrderResult))
    (db : DB) (tid : String) (now : Int) (txn : Txn)
    (hfind : db.find? (fun t => t.id == tid && t.provider == "payme") = some txn)
    (hne : (txn.billzOrderId != "") = true) :
    dispatchBillzOrder co db tid now =
      (db, 0, .ok (some { orderId := txn.billzOrderId,
                          orderNumber := txn.billzOrderNumber,
                          orderType := txn.billzOrderType })) := by
  unfold dispatchBillzOrder dispatchAttempt
  rw [hfind]
  dsimp only
  rw [if_pos hne]

/-! ## Claim theorems -/

/-- C4: for every transaction `PerformTransaction` finds in the pending state
within the 12-minute window, the RPC returns success — the new perform time
and state 2 — for every possible outcome of the triggered Billz dispatch
(the dispatch oracle `co` is universally quantified, so in particular when it
returns an error): a dispatch failure is never translated into a protocol
error or returned to the RPC caller. -/
theorem c4_perform_reports_success_despite_dispatch_failure
    (co : Txn → Except String (Option BillzOrderResult)) (db : DB)
    (p : PerformTransactionParams) (now : Int) (txn : Txn)
    (hfind : db.find? (fun t => t.transactionId == p.id) = some txn)
    (hpending : txn.status = 1)
    (hage0 : 0 ≤ now - txn.createTime)
    (hage : now - txn.createTime < 720000) :
    (performTransaction co db p now).2 =
      .ok { performTime := now, transaction := txn.transactionId, state := 2 } :=
  performTransaction_pending_ok co db p now txn hfind hpending hage0 hage

/-- Witness for C4: a pending row created at time 0, performed at 60000 ms
with a dispatch oracle that always fails, still yields the successful RPC
result. -/
theorem c4_witness :
    (performTransaction (fun _ => .error "billz down")
        [{ mkTxn with transactionId := "t4", status := 1, createTime := 0 }]
        { id := "t4" } 60000).2 =
      .ok { performTime := 60000, transaction := "t4", state := 2 } :=
  c4_perform_reports_success_despite_dispatch_failure _ _ _ _
    { mkTxn with transactionId := "t4", status := 1, createTime := 0 }
    (by decide) (by decide) (by decide) (by decide)

/-- C7 counterexample: `CancelTransaction` on an already-canceled row whose
stored `cancel_time` is 0 does not return the stored cancel time — it
returns the current time (77 here), refuting the claim that the existing
stored cancel time is always returned unchanged. -/
theorem c7_counterexample :
    (cancelTransaction [{ mkTxn with transactionId := "t7", status := -1 }]
        { id := "t7", reason := 5 } 77) =
      ([{ mkTxn with transactionId := "t7", status := -1 }],
       .ok { cancelTime := 77, transaction := "t7", state := -1 }) ∧
    ({ mkTxn with transactionId := "t7", status := -1 } : Txn).cancelTime = 0 ∧
    (77 : Int) ≠ 0 := by
  exact ⟨rfl, rfl, by decide⟩

/-- C7 amended: `CancelTransaction` on a row with non-positive status writes
nothing (the database is returned unchanged) and returns state `-|status|`
together with the stored cancel time when that is non-zero; when the stored
cancel time is zero it returns the current time instead of the stored
value. -/
theorem c7_amended_cancel_noop (db : DB) (p : CancelTransactionParams) (now : Int)
    (txn : Txn)
    (hfind : db.find? (fun t => t.transactionId == p.id) = some txn)
    (hnonpos : txn.status ≤ 0) :
    cancelTransaction db p now =
      (db, .ok { cancelTime := if txn.cancelTime = 0 then now else txn.cancelTime,
                 transaction := txn.transactionId,
                 state := -1 * intAbs txn.status }) := by
  unfold cancelTransaction
  rw [hfind]
  dsimp only
  rw [if_neg (not_lt.mpr hnonpos)]
  simp [beq_iff_eq]

/-- Witness for C7: a paid-canceled row with stored cancel time 9 is returned
unchanged with that stored cancel time. -/
theorem c7_witness :
    cancelTransaction [{ mkTxn with transactionId := "w7", status := -2, cancelTime := 9 }]
        { id := "w7", reason := 3 } 100 =
      ([{ mkTxn with transactionId := "w7", status := -2, cancelTime := 9 }],
       .ok { cancelTime := 9, transaction := "w7", state := -2 }) :=
  c7_amended_cancel_noop _ _ _
    { mkTxn with transactionId := "w7", status := -2, cancelTime := 9 }
    (by decide) (by decide)

/-- C2: dispatch is idempotent.  First conjunct: when the locked re-read finds
a row already recording a non-empty Billz order id, the dispatch path returns
exactly the recorded order id/number/type, leaves the database unchanged, and
invokes the order-creation path zero times (so no create-draft-order HTTP call
is issued).  Second conjunct: once any dispatch run has returned a Billz
order result (necessarily persisting it), a second dispatch run for the same
transaction id invokes the order-creation path zero times and returns the
same recorded result unchanged. -/
theorem c2_dispatch_idempotent
    (co co2 : Txn → Except String (Option BillzOrderResult)) (db : DB)
    (tid : String) (now now2 : Int) :
    (∀ txn, db.find? (fun t => t.id == tid && t.provider == "payme") = some txn →
      txn.billzOrderId ≠ "" →
      dispatchBillzOrder co db tid now =
        (db, 0, .ok (some { orderId := txn.billzOrderId,
                            orderNumber := txn.billzOrderNumber,
                            orderType := txn.billzOrderType }))) ∧
    (∀ db1 n res, dispatchBillzOrder co db tid now = (db1, n, .ok (some res)) →
      res.orderId ≠ "" →
      dispatchBillzOrder co2 db1 tid now2 = (db1, 0, .ok (some res))) := by
  constructor
  · intro txn hfind hne
    exact dispatch_shortcircuit co db tid now txn hfind (by simpa [bne_iff_ne] using hne)
  · intro db1 n res h1 hres
    unfold dispatchBillzOrder dispatchAttempt at h1
    cases hfind : db.find? (fun t => t.id == tid && t.provider == "payme") with
    | none => rw [hfind] at h1; cases h1
    | some txn =>
      rw [hfind] at h1
      dsimp only at h1
      by_cases hb : (txn.billzOrderId != "") = true
      · rw [if_pos hb] at h1
        dsimp only at h1
        injection h1 with hdb h1
        injection h1 with hn h1
        injection h1 with h1
        injection h1 with h1
        subst hdb
        rw [← h1]
        exact dispatch_shortcircuit co2 db tid now2 txn hfind hb
      · rw [if_neg hb] at h1
        cases hco : co txn with
        | error msg => rw [hco] at h1; cases h1
        | ok r =>
          rw [hco] at h1
          cases r with
          | none => cases h1
          | some r =>
            dsimp only at h1
            injection h1 with hdb h1
            injection h1 with hn h1
            injection h1 with h1
            injection h1 with h1
            subst h1
            have hid : (txn.id == tid) = true := by
              have := List.find?_some hfind
              exact ((Bool.and_eq_true _ _).mp this).1
            have hfind1 : db1.find? (fun t => t.id == tid && t.provider == "payme") =
                some { txn with
                       billzOrderId := r.orderId,
                       billzOrderNumber := r.orderNumber,
                       billzOrderType := r.orderType,
                       billzSyncedAt := some now,
                       billzSyncError := "" } := by
              rw [← hdb,
                find?_updateWhere db (fun t => t.id == tid && t.provider == "payme")
                  (fun t => t.id == tid)
                  (fun t => { t with
                              billzOrderId := r.orderId,
                              billzOrderNumber := r.orderNumber,
                              billzOrderType := r.orderType,
                              billzSyncedAt := some now,
                              billzSyncError := "" })
                  (fun t => rfl),
                hfind]
              simp only [Option.map_some']
              rw [if_pos hid]
            have h2 := dispatch_shortcircuit co2 db1 tid now2 _ hfind1
              (by simpa [bne_iff_ne] using hres)
            exact h2

/-- Witness for C2: a row already recording Billz order `B1`: dispatch returns
the recorded triple with zero conversion attempts, and a second run after a
run that returned `B1` behaves identically. -/
theorem c2_witness :
    dispatchBillzOrder (fun _ => .error "x") [rowW2] "w2" 1 =
      ([rowW2], 0, .ok (some { orderId := "B1", orderNumber := "N1", orderType := "T1" })) ∧
    dispatchBillzOrder (fun _ => .ok none) [rowW2] "w2" 2 =
      ([rowW2], 0, .ok (some { orderId := "B1", orderNumber := "N1", orderType := "T1" })) := by
  refine ⟨(c2_dispatch_idempotent (fun _ => .error "x") (fun _ => .ok none) [rowW2]
      "w2" 1 2).1 rowW2 (by decide) (by decide), ?_⟩
  exact (c2_dispatch_idempotent (fun _ => .error "x") (fun _ => .ok none) [rowW2]
      "w2" 1 2).2 [rowW2] 0 { orderId := "B1", orderNumber := "N1", orderType := "T1" }
      rfl (by decide)

/-- C3 (code-bug exhibit): for a paid row with no recorded Billz order whose
conversion fails, the committed database equals the original one — the
`billz_sync_error` UPDATE is issued on the transaction handle and the closure
then returns the error, so gorm rolls the write back — while the failure is
propagated and the external-order-id stays empty.  The middle conjunct shows
the closure body alone would have persisted the truncated message (the
evident intent), and the last conjunct evaluates the truncation. -/
theorem c3_sync_error_rolled_back :
    dispatchBillzOrder (fun _ => .error "order details missing items") [rowC3]
        "22222222-2222-2222-2222-222222222222" 50 =
      ([rowC3], 1, .error (.orderCreate "order details missing items")) ∧
    (dispatchAttempt (fun _ => .error "order details missing items") [rowC3]
        "22222222-2222-2222-2222-222222222222" 50).1 =
      [{ rowC3 with billzSyncError := "order details missing items" }] ∧
    truncateBillzSyncError (some "order details missing items") =
      "order details missing items" := by
  exact ⟨rfl, rfl, rfl⟩

/-- C9: when a transaction's stored `order_details` payload is empty, the
dispatch path returns success with no result for every possible remainder of
the conversion (`rest` is universally quantified, so no Billz call is
consulted): the database is unchanged — no error text recorded, the
external-order-id stays empty — and (second conjunct) `PerformTransaction`
on a fresh pending row still reports success, so the sale is silently never
dispatched and never marked failed. -/
theorem c9_empty_order_details_silently_skipped
    (rest : Txn → Except String (Option BillzOrderResult)) (db : DB)
    (tid : String) (now : Int) (txn : Txn)
    (hfind : db.find? (fun t => t.id == tid && t.provider == "payme") = some txn)
    (hnoorder : txn.billzOrderId = "")
    (hempty : txn.orderDetails = "") :
    dispatchBillzOrder (createBillzOrderFromPaymeTransaction rest) db tid now =
      (db, 1, .ok none) ∧
    (∀ (db' : DB) (p : PerformTransactionParams) (now' : Int) (txn' : Txn),
      db'.find? (fun t => t.transactionId == p.id) = some txn' →
      txn'.status = 1 → 0 ≤ now' - txn'.createTime →
      now' - txn'.createTime < 720000 →
      (performTransaction (createBillzOrderFromPaymeTransaction rest) db' p now').2 =
        .ok { performTime := now', transaction := txn'.transactionId, state := 2 }) := by
  constructor
  · unfold dispatchBillzOrder dispatchAttempt
    rw [hfind]
    dsimp only
    rw [if_neg (by simp [hnoorder])]
    have hco : createBillzOrderFromPaymeTransaction rest txn = .ok none := by
      unfold createBillzOrderFromPaymeTransaction
      rw [hempty]
      rfl
    rw [hco]
  · intro db' p now' txn' hfind' hpending' h0 h1
    exact performTransaction_pending_ok _ _ _ _ _ hfind' hpending' h0 h1

/-- Witness for C9: a row with empty order details is silently skipped, and a
perform call on a fresh pending row reports success. -/
theorem c9_witness :
    dispatchBillzOrder (createBillzOrderFromPaymeTransaction (fun _ => .error "never"))
        [{ mkTxn with id := "w9" }] "w9" 5 = ([{ mkTxn with id := "w9" }], 1, .ok none) ∧
    (performTransaction (createBillzOrderFromPaymeTransaction (fun _ => .error "never"))
        [{ mkTxn with transactionId := "t9", status := 1 }] { id := "t9" } 10).2 =
      .ok { performTime := 10, transaction := "t9", state := 2 } := by
  have h := c9_empty_order_details_silently_skipped (fun _ => .error "never")
      [{ mkTxn with id := "w9" }] "w9" 5 { mkTxn with id := "w9" }
      (by decide) (by decide) (by decide)
  exact ⟨h.1, h.2 _ _ 10 { mkTxn with transactionId := "t9", status := 1 }
      (by decide) (by decide) (by decide) (by decide)⟩

/-- C5 counterexample: with request amount −150 and a matching row storing
amount −2, the mathematical floor of −150/100 is −2 and equals the stored
amount, yet the code (Go division truncates toward zero, so −150/100 = −1)
rejects with `InvalidAmount` — refuting "fails with InvalidAmount iff
floor(amount/100) is not equal to the stored amount". -/
theorem c5_counterexample :
    checkPerformTransaction (fun _ => none)
        [{ mkTxn with orderId := "oneg", amount := -2 }]
        { amount := -150, account := { orderId := "oneg" } } =
      some .invalidAmount ∧
    Int.fdiv (-150) 100 = -2 ∧
    goDiv (-150) 100 = -1 := by
  exact ⟨rfl, by decide, by decide⟩

/-- C5 amended: `CheckPerformTransaction` fails with `TransactionNotFound`
iff no provider row matches the account reference; when a row is found it
fails with `InvalidAmount` iff the stored amount differs from the request
amount divided by 100 with Go semantics (truncation toward zero — which is
the floor only for non-negative amounts), and otherwise succeeds (the
function performs no writes). -/
theorem c5_amended_checkperform
    (up : String → Option String) (db : DB) (p : CheckPerformParams) :
    (checkPerformTransaction up db p = some .transactionNotFound ↔
      ∀ t ∈ db, matchesOrderRef up p.account.orderId t = false) ∧
    (∀ txn, findTransactionByOrderRef up db p.account.orderId = some txn →
      ((checkPerformTransaction up db p = some .invalidAmount ↔
         txn.amount ≠ goDiv p.amount 100) ∧
       (txn.amount = goDiv p.amount 100 → checkPerformTransaction up db p = none))) := by
  unfold checkPerformTransaction
  cases hf : findTransactionByOrderRef up db p.account.orderId with
  | none =>
    dsimp only
    refine ⟨⟨fun _ => (findTransactionByOrderRef_eq_none_iff up db _).mp hf,
            fun _ => rfl⟩, ?_⟩
    intro txn htxn
    cases htxn
  | some t =>
    dsimp only
    refine ⟨⟨fun h => ?_, fun hall => ?_⟩, ?_⟩
    · by_cases ha : (t.amount != goDiv p.amount 100) = true
      · rw [if_pos ha] at h
        simp at h
      · rw [if_neg ha] at h
        simp at h
    · obtain ⟨hmem, hmatch⟩ := findTransactionByOrderRef_mem_matches up db _ t hf
      rw [hall t hmem] at hmatch
      cases hmatch
    · intro txn htxn
      injection htxn with htxn
      subst htxn
      refine ⟨⟨fun h => ?_, fun hne => ?_⟩, fun heq => ?_⟩
      · by_cases ha : (t.amount != goDiv p.amount 100) = true
        · simpa [bne_iff_ne] using ha
        · rw [if_neg ha] at h
          simp at h
      · rw [if_pos (by simpa [bne_iff_ne] using hne)]
      · rw [if_neg (by simp [bne_iff_ne, heq])]

/-- Witness for C5: amount 350 against a stored amount of 3 passes the gate
(350 / 100 = 3). -/
theorem c5_witness :
    checkPerformTransaction (fun _ => none)
        [{ mkTxn with orderId := "o5", amount := 3 }]
        { amount := 350, account := { orderId := "o5" } } = none := by
  have h := (c5_amended_checkperform (fun _ => none)
      [{ mkTxn with orderId := "o5", amount := 3 }]
      { amount := 350, account := { orderId := "o5" } }).2
      { mkTxn with orderId := "o5", amount := 3 } (by decide)
  exact h.2 (by decide)

theorem twelve_le_goDiv (d : Int) (h : 720000 ≤ d) : 12 ≤ goDiv d 60000 := by
  rw [goDiv, Int.tdiv_eq_ediv (by omega) (by norm_num)]
  omega

theorem createTransaction_stale_eq (up : String → Option String) (db : DB)
    (p : CreateTransactionParams) (now : Int) (ex : Txn)
    (hcp : checkPerformTransaction up db
      { amount := p.amount, account := p.account } = none)
    (hex : db.find? (fun t => t.transactionId == p.id) = some ex)
    (hst : ex.status = 1) (hage : 720000 ≤ now - ex.createTime) :
    createTransaction up db p now =
      (updateWhere db (fun t => t.transactionId == p.id)
          (fun t => { t with status := -1, reason := some 4 }),
       .error .cantDoOperation) := by
  unfold createTransaction
  rw [hcp, hex]
  dsimp only
  rw [if_neg (by simp [hst]), if_pos (twelve_le_goDiv _ hage)]

theorem performTransaction_stale_eq
    (co : Txn → Except String (Option BillzOrderResult)) (db : DB)
    (p : PerformTransactionParams) (now : Int) (txn : Txn)
    (hfind : db.find? (fun t => t.transactionId == p.id) = some txn)
    (hst : txn.status = 1) (hage : 720000 ≤ now - txn.createTime) :
    performTransaction co db p now =
      (updateWhere db (fun t => t.transactionId == p.id)
          (fun t => { t with status := -1, reason := some 4, cancelTime := now }),
       .error .cantDoOperation) := by
  unfold performTransaction
  rw [hfind]
  dsimp only
  rw [if_neg (by simp [hst]), if_pos (twelve_le_goDiv _ hage)]

theorem find?_after_tid_update (db : DB) (pid : String) (f : Txn → Txn) (ex : Txn)
    (hf : ∀ t, (f t).transactionId = t.transactionId)
    (hex : db.find? (fun t => t.transactionId == pid) = some ex) :
    (updateWhere db (fun t => t.transactionId == pid) f).find?
        (fun t => t.transactionId == pid) = some (f ex) := by
  rw [find?_updateWhere db _ _ f (fun t => by rw [hf]), hex]
  simp only [Option.map_some']
  rw [if_pos (List.find?_some hex)]

/-- C6: a pending row whose age is at least 12 minutes (720000 ms) is
rejected with `CantDoOperation` (numeric code −31008) both by
`CreateTransaction` for the same external id (when the amount/account
validation gate passes, as on a provider retry) and by `PerformTransaction`,
and in both cases the row is side-effected to state −1 (pending-canceled)
with reason code 4. -/
theorem c6_stale_pending_rejected_and_canceled
    (up : String → Option String) (db : DB) (now : Int) :
    (∀ (p : CreateTransactionParams) (ex : Txn),
      checkPerformTransaction up db { amount := p.amount, account := p.account } = none →
      db.find? (fun t => t.transactionId == p.id) = some ex →
      ex.status = 1 → 720000 ≤ now - ex.createTime →
      (createTransaction up db p now).2 = .error .cantDoOperation ∧
      errCode .cantDoOperation = -31008 ∧
      ((createTransaction up db p now).1.find?
          (fun t => t.transactionId == p.id)).map Txn.status = some (-1) ∧
      ((createTransaction up db p now).1.find?
          (fun t => t.transactionId == p.id)).map Txn.reason = some (some 4)) ∧
    (∀ (co : Txn → Except String (Option BillzOrderResult))
       (p : PerformTransactionParams) (txn : Txn),
      db.find? (fun t => t.transactionId == p.id) = some txn →
      txn.status = 1 → 720000 ≤ now - txn.createTime →
      (performTransaction co db p now).2 = .error .cantDoOperation ∧
      errCode .cantDoOperation = -31008 ∧
      ((performTransaction co db p now).1.find?
          (fun t => t.transactionId == p.id)).map Txn.status = some (-1) ∧
      ((performTransaction co db p now).1.find?
          (fun t => t.transactionId == p.id)).map Txn.reason = some (some 4)) := by
  constructor
  · intro p ex hcp hex hst hage
    have heq := createTransaction_stale_eq up db p now ex hcp hex hst hage
    have hfind := find?_after_tid_update db p.id
        (fun t => { t with status := -1, reason := some 4 }) ex (fun t => rfl) hex
    rw [heq]
    dsimp only
    rw [hfind]
    exact ⟨rfl, rfl, rfl, rfl⟩
  · intro co p txn hfind0 hst hage
    have heq := performTransaction_stale_eq co db p now txn hfind0 hst hage
    have hfind := find?_after_tid_update db p.id
        (fun t => { t with status := -1, reason := some 4, cancelTime := now })
        txn (fun t => rfl) hfind0
    rw [heq]
    dsimp only
    rw [hfind]
    exact ⟨rfl, rfl, rfl, rfl⟩

/-- Witness for C6: the stale pending row `row6` (created at 0, touched at
720000 ms) is rejected and canceled by both operations. -/
theorem c6_witness :
    (createTransaction (fun _ => none) [row6] p6 720000).2 = .error .cantDoOperation ∧
    ((createTransaction (fun _ => none) [row6] p6 720000).1.find?
        (fun t => t.transactionId == p6.id)).map Txn.status = some (-1) ∧
    (performTransaction (fun _ => .ok none) [row6] { id := "t6" } 720000).2 =
      .error .cantDoOperation := by
  have h := c6_stale_pending_rejected_and_canceled (fun _ => none) [row6] 720000
  have h1 := h.1 p6 row6 (by decide) (by decide) (by decide) (by decide)
  have h2 := h.2 (fun _ => .ok none) { id := "t6" } row6
    (by decide) (by decide) (by decide)
  exact ⟨h1.1, h1.2.2.1, h2.1⟩

/-- C10: when `CreateTransaction` auto-cancels a stale pending row it writes
only `status := -1` and `reason := 4`, leaving `cancel_time` (and every other
field) unchanged, whereas `PerformTransaction`'s timeout path additionally
stamps `cancel_time` with the current time — so a row timeout-canceled via
`CreateTransaction` keeps its previous cancel time (typically 0). -/
theorem c10_create_timeout_frame
    (up : String → Option String) (db : DB) (now : Int) :
    (∀ (p : CreateTransactionParams) (ex : Txn),
      checkPerformTransaction up db { amount := p.amount, account := p.account } = none →
      db.find? (fun t => t.transactionId == p.id) = some ex →
      ex.status = 1 → 720000 ≤ now - ex.createTime →
      (createTransaction up db p now).1.find? (fun t => t.transactionId == p.id) =
        some { ex with status := -1, reason := some 4 }) ∧
    (∀ (co : Txn → Except String (Option BillzOrderResult))
       (p : PerformTransactionParams) (txn : Txn),
      db.find? (fun t => t.transactionId == p.id) = some txn →
      txn.status = 1 → 720000 ≤ now - txn.createTime →
      (performTransaction co db p now).1.find? (fun t => t.transactionId == p.id) =
        some { txn with status := -1, reason := some 4, cancelTime := now }) := by
  constructor
  · intro p ex hcp hex hst hage
    rw [createTransaction_stale_eq up db p now ex hcp hex hst hage]
    exact find?_after_tid_update db p.id
        (fun t => { t with status := -1, reason := some 4 }) ex (fun t => rfl) hex
  · intro co p txn hfind0 hst hage
    rw [performTransaction_stale_eq co db p now txn hfind0 hst hage]
    exact find?_after_tid_update db p.id
        (fun t => { t with status := -1, reason := some 4, cancelTime := now })
        txn (fun t => rfl) hfind0

/-- Witness for C10: after the `CreateTransaction` timeout cancel the row's
cancel time is still 0; after the `PerformTransaction` one it is 720000. -/
theorem c10_witness :
    (createTransaction (fun _ => none) [row6] p6 720000).1.find?
        (fun t => t.transactionId == p6.id) =
      some { row6 with status := -1, reason := some 4 } ∧
    (performTransaction (fun _ => .ok none) [row6] { id := "t6" } 720000).1.find?
        (fun t => t.transactionId == "t6") =
      some { row6 with status := -1, reason := some 4, cancelTime := 720000 } := by
  have h := c10_create_timeout_frame (fun _ => none) [row6] 720000
  exact ⟨h.1 p6 row6 (by decide) (by decide) (by decide) (by decide),
         h.2 (fun _ => .ok none) { id := "t6" } row6
           (by decide) (by decide) (by decide)⟩

/-- C8: the Billz client's 401 handling.  First conjunct: with a cache-sourced
token (no caller-supplied token), a 401 first response triggers exactly one
forced refresh and exactly one re-issued request, whose outcome is returned
as-is — never a loop.  Second conjunct: when the caller supplied an explicit
token, a 401 response is returned unchanged with no refresh and no retry.
Third conjunct: unconditionally, a call issues at most two HTTP attempts and
at most one refresh. -/
theorem c8_retry_once_semantics (gt rt : Except String String)
    (ex : Nat → String → Except String BillzResp) (method path : String) :
    (∀ tok (r : BillzResp) tok2, method ≠ "" →
      String.mk (path.toList.dropWhile (fun c => c == '/')) ≠ "" →
      gt = .ok tok → ex 0 tok = .ok r → r.status = 401 → rt = .ok tok2 →
      doBillzRequest gt rt ex method path "" = (ex 1 tok2, 2, 1)) ∧
    (∀ optsToken (r : BillzResp), method ≠ "" →
      String.mk (path.toList.dropWhile (fun c => c == '/')) ≠ "" →
      optsToken ≠ "" → ex 0 optsToken = .ok r → r.status = 401 →
      doBillzRequest gt rt ex method path optsToken = (.ok r, 1, 0)) ∧
    (∀ optsToken,
      (doBillzRequest gt rt ex method path optsToken).2.1 ≤ 2 ∧
      (doBillzRequest gt rt ex method path optsToken).2.2 ≤ 1) := by
  refine ⟨?_, ?_, ?_⟩
  · intro tok r tok2 hm hp hgt hex0 hr hrt
    unfold doBillzRequest
    rw [if_neg (by simpa [bne_iff_ne] using hm),
        if_neg (by simpa [bne_iff_ne] using hp),
        if_pos (by rfl)]
    rw [hgt]
    dsimp only
    rw [hex0]
    dsimp only
    rw [if_neg (by simp [hr])]
    rw [hrt]
    dsimp only
    cases hx : ex 1 tok2 <;> rfl
  · intro optsToken r hm hp htok hex0 hr
    unfold doBillzRequest
    rw [if_neg (by simpa [bne_iff_ne] using hm),
        if_neg (by simpa [bne_iff_ne] using hp),
        if_neg (by simpa [bne_iff_ne] using htok)]
    dsimp only
    rw [hex0]
    dsimp only
    rw [if_pos (by simp [bne_iff_ne, htok])]
  · intro optsToken
    unfold doBillzRequest
    repeat' split
    all_goals exact ⟨by dsimp only; omega, by dsimp only; omega⟩

/-- Witness for C8: a first attempt answered 401 with the cached token is
refreshed and retried exactly once (yielding the second attempt's 200);
with an explicit token the 401 is returned as-is. -/
theorem c8_witness :
    doBillzRequest (.ok "a") (.ok "b")
        (fun n _ => if n == 0 then .ok { status := 401, body := "" }
                    else .ok { status := 200, body := "done" })
        "POST" "v2/order" "" =
      (.ok { status := 200, body := "done" }, 2, 1) ∧
    doBillzRequest (.ok "a") (.ok "b")
        (fun n _ => if n == 0 then .ok { status := 401, body := "" }
                    else .ok { status := 200, body := "done" })
        "POST" "v2/order" "X" =
      (.ok { status := 401, body := "" }, 1, 0) := by
  have h := c8_retry_once_semantics (.ok "a") (.ok "b")
      (fun n _ => if n == 0 then .ok { status := 401, body := "" }
                  else .ok { status := 200, body := "done" })
      "POST" "v2/order"
  exact ⟨h.1 "a" { status := 401, body := "" } "b" (by decide) (by decide)
           rfl rfl rfl rfl,
         h.2.1 "X" { status := 401, body := "" } (by decide) (by decide)
           (by decide) rfl rfl⟩

/-- C1 counterexample: `CreateTransaction` binding the fresh external id `t1`
to the order reference of the pending-canceled row `rowC1` (status −1)
succeeds and sets the row back to pending (status 1, with the new create
time) — a canceled row is revived, refuting the claim that −1/−2 are
terminal for every RPC operation. -/
theorem c1_counterexample :
    rowC1.status = -1 ∧
    createTransaction upC1 [rowC1] pC1 1000 =
      ([{ rowC1 with transactionId := "t1", status := 1, createTime := 777 }],
       .ok { createTime := 777, performTime := 0, cancelTime := 0,
             transaction := "t1", state := 1, reason := none }) := by
  exact ⟨rfl, rfl⟩

/-- C1 amended: under per-call integrity assumptions (statuses are protocol
states; the external id addressed by the call and the order reference bound
by `CreateTransaction` each select at most one row), every RPC operation
changes each row's status only along `0→1`, `1→2`, `1→-1`, `2→-2`, or leaves
it unchanged — except that `CreateTransaction` binding a fresh external id to
the order reference of a canceled row revives it, `-1→1` or `-2→1`; the
canceled states are therefore terminal for same-id operations but not
against a fresh-id `CreateTransaction`. -/
theorem c1_amended_transitions (up : String → Option String) (db : DB)
    (op : RpcOp) (now : Int) (hw : wellStatus db) (hc : opWellFormed up db op) :
    ∀ (i : Nat) (t t' : Txn), db[i]? = some t →
      (applyOp up db op now)[i]? = some t' → statusStep t.status t'.status := by
  intro i t t' ht ht'
  cases op with
  | checkPerform p => exact statusStep_of_same db i t t' ht ht'
  | check pid => exact statusStep_of_same db i t t' ht ht'
  | statement p => exact statusStep_of_same db i t t' ht ht'
  | cancel p =>
    have hcount : db.countP (fun t => t.transactionId == p.id) ≤ 1 := hc
    unfold applyOp cancelTransaction at ht'
    dsimp only at ht'
    cases hex : db.find? (fun t => t.transactionId == p.id) with
    | none =>
      rw [hex] at ht'
      exact statusStep_of_same db i t t' ht ht'
    | some txn =>
      rw [hex] at ht'
      dsimp only at ht'
      by_cases hpos : 0 < txn.status
      · rw [if_pos hpos] at ht'
        dsimp only at ht'
        refine statusStep_of_update db _ _ ?_ i t t' ht ht'
        intro u hu hpu
        have htxnp := List.find?_some hex
        have hue : u = txn := countP_le_one_unique _ db hcount hu hpu
            (List.mem_of_find?_eq_some hex) htxnp
        show statusStep u.status (-1 * intAbs txn.status)
        rw [hue]
        rcases hw txn (List.mem_of_find?_eq_some hex) with h0 | h1 | h2 | hm1 | hm2
        · rw [h0] at hpos
          exact absurd hpos (by decide)
        · rw [h1]
          exact Or.inr (Or.inr (Or.inr (Or.inl ⟨rfl, by decide⟩)))
        · rw [h2]
          exact Or.inr (Or.inr (Or.inr (Or.inr (Or.inl ⟨rfl, by decide⟩))))
        · rw [hm1] at hpos
          exact absurd hpos (by decide)
        · rw [hm2] at hpos
          exact absurd hpos (by decide)
      · rw [if_neg hpos] at ht'
        exact statusStep_of_same db i t t' ht ht'
  | perform co p =>
    have hcount : db.countP (fun t => t.transactionId == p.id) ≤ 1 := hc
    unfold applyOp performTransaction at ht'
    dsimp only at ht'
    cases hex : db.find? (fun t => t.transactionId == p.id) with
    | none =>
      rw [hex] at ht'
      exact statusStep_of_same db i t t' ht ht'
    | some txn =>
      rw [hex] at ht'
      dsimp only at ht'
      by_cases hs : (txn.status != 1) = true
      · rw [if_pos hs] at ht'
        by_cases hs2 : (txn.status != 2) = true
        · rw [if_pos hs2] at ht'
          exact statusStep_of_same db i t t' ht ht'
        · rw [if_neg hs2] at ht'
          dsimp only at ht'
          have hst := dispatchBillzOrder_status_eq co db txn.id now i
          rw [ht', ht] at hst
          simp only [Option.map_some'] at hst
          injection hst with hst
          rw [hst]
          exact statusStep_refl _
      · rw [if_neg hs] at ht'
        by_cases hstale : 12 ≤ goDiv (now - txn.createTime) 60000
        · rw [if_pos hstale] at ht'
          refine statusStep_of_update db _ _ ?_ i t t' ht ht'
          intro u hu hpu
          have htxnp := List.find?_some hex
          have hue : u = txn := countP_le_one_unique _ db hcount hu hpu
              (List.mem_of_find?_eq_some hex) htxnp
          have h1 : txn.status = 1 := by
            have := (not_iff_not.mpr bne_iff_ne).mp hs
            simpa using this
          show statusStep u.status (-1)
          rw [hue, h1]
          exact Or.inr (Or.inr (Or.inr (Or.inl ⟨rfl, rfl⟩)))
        · rw [if_neg hstale] at ht'
          dsimp only at ht'
          have h1 : txn.status = 1 := by
            have := (not_iff_not.mpr bne_iff_ne).mp hs
            simpa using this
          have hst := dispatchBillzOrder_status_eq co
              (updateWhere db (fun t => t.transactionId == p.id)
                (fun t => { t with status := 2, performTime := now })) txn.id now i
          rw [ht'] at hst
          rw [updateWhere_getElem?, ht] at hst
          simp only [Option.map_some'] at hst
          injection hst with hst
          by_cases hpt : (t.transactionId == p.id) = true
          · rw [if_pos hpt] at hst
            have htxnp := List.find?_some hex
            have hte : t = txn := countP_le_one_unique _ db hcount
                (List.getElem?_mem ht) hpt (List.mem_of_find?_eq_some hex) htxnp
            rw [hst, hte, h1]
            exact Or.inr (Or.inr (Or.inl ⟨rfl, rfl⟩))
          · rw [if_neg hpt] at hst
            rw [hst]
            exact statusStep_refl _
  | create p =>
    obtain ⟨hctid, hcref⟩ := hc
    unfold applyOp createTransaction at ht'
    dsimp only at ht'
    cases hcp : checkPerformTransaction up db { amount := p.amount, account := p.account } with
    | some e =>
      rw [hcp] at ht'
      exact statusStep_of_same db i t t' ht ht'
    | none =>
      rw [hcp] at ht'
      dsimp only at ht'
      cases hex : db.find? (fun t => t.transactionId == p.id) with
      | some existing =>
        rw [hex] at ht'
        dsimp only at ht'
        by_cases hs : (existing.status != 1) = true
        · rw [if_pos hs] at ht'
          exact statusStep_of_same db i t t' ht ht'
        · rw [if_neg hs] at ht'
          by_cases hstale : 12 ≤ goDiv (now - existing.createTime) 60000
          · rw [if_pos hstale] at ht'
            refine statusStep_of_update db _ _ ?_ i t t' ht ht'
            intro u hu hpu
            have hexp := List.find?_some hex
            have hue : u = existing := countP_le_one_unique _ db hctid hu hpu
                (List.mem_of_find?_eq_some hex) hexp
            have h1 : existing.status = 1 := by
              have := (not_iff_not.mpr bne_iff_ne).mp hs
              simpa using this
            show statusStep u.status (-1)
            rw [hue, h1]
            exact Or.inr (Or.inr (Or.inr (Or.inl ⟨rfl, rfl⟩)))
          · rw [if_neg hstale] at ht'
            exact statusStep_of_same db i t t' ht ht'
      | none =>
        rw [hex] at ht'
        dsimp only at ht'
        cases hord : findTransactionByOrderRef up db p.account.orderId with
        | some order =>
          rw [hord] at ht'
          dsimp only at ht'
          by_cases h2 : (order.status == 2) = true
          · rw [if_pos h2] at ht'
            exact statusStep_of_same db i t t' ht ht'
          · rw [if_neg h2] at ht'
            by_cases h1 : (order.status == 1) = true
            · rw [if_pos h1] at ht'
              exact statusStep_of_same db i t t' ht ht'
            · rw [if_neg h1] at ht'
              unfold createBind at ht'
              dsimp only at ht'
              refine statusStep_of_update db _ _ ?_ i t t' ht ht'
              intro u hu hpu
              obtain ⟨homem, homatch⟩ :=
                findTransactionByOrderRef_mem_matches up db p.account.orderId order hord
              have hue : u = order := countP_le_one_unique _ db hcref hu hpu homem homatch
              show statusStep u.status 1
              rw [hue]
              rcases hw order homem with h0 | ho1 | ho2 | hm1 | hm2
              · rw [h0]
                exact Or.inr (Or.inl ⟨rfl, rfl⟩)
              · exact absurd (by simp [ho1]) h1
              · exact absurd (by simp [ho2]) h2
              · rw [hm1]
                exact Or.inr (Or.inr (Or.inr (Or.inr (Or.inr ⟨Or.inl rfl, rfl⟩))))
              · rw [hm2]
                exact Or.inr (Or.inr (Or.inr (Or.inr (Or.inr ⟨Or.inr rfl, rfl⟩))))
        | none =>
          rw [hord] at ht'
          unfold createBind at ht'
          dsimp only at ht'
          refine statusStep_of_update db _ _ ?_ i t t' ht ht'
          intro u hu hpu
          have := (findTransactionByOrderRef_eq_none_iff up db p.account.orderId).mp hord u hu
          rw [hpu] at this
          cases this

/-- Witness for C1 (amended): a concrete `CancelTransaction` call on a
single pending row takes the `1 → -1` edge of the transition relation. -/
theorem c1_witness : statusStep 1 (-1) :=
  c1_amended_transitions (fun _ => none)
    [{ mkTxn with transactionId := "tc", status := 1 }]
    (.cancel { id := "tc", reason := 3 }) 5
    (by unfold wellStatus; decide)
    (by unfold opWellFormed; decide) 0
    { mkTxn with transactionId := "tc", status := 1 }
    { mkTxn with transactionId := "tc", status := -1, reason := some 3, cancelTime := 5 }
    (by decide) (by decide)
